import Mathlib

/-!
Formal model of the AI draft-reply engine, the reply-outcome learner and
the scheduled-template engine of the vbr-platform backend
(`backend/app/services/ai_drafter.py`, `backend/app/services/learning.py`,
`backend/app/services/template_scheduler.py`, together with the ORM rows
they touch from `backend/app/db/models.py`), and proofs of behavioural
claims about them.

Conventions of the embedding:
* A Python `datetime` value is minutes since the epoch (`Int`); a SQL
  `date` is a day number (`Int`); `datetime.combine(d, time.min)` is
  `d * 1440`.
* Nullable columns are `Option`s.  Python truthiness of a string is
  "non-empty"; of an optional value, "present and truthy".
* Fallible Python code (a raised exception) is `Except String _`, or an
  explicit error component carried next to the state it left behind.
* Floating-point confidences are embedded as exact rationals; only the
  order and equality of small decimal literals matter to the claims.
* Database-assigned surrogate ids and audit timestamps that no claim
  mentions are omitted from row types.
-/

namespace VBR

set_option maxRecDepth 16000

/-! ### Python string primitives -/

/-- Python `\s` / `str.split()` / `str.strip()` whitespace (ASCII part). -/
def wsChar (c : Char) : Bool :=
  c == ' ' || c == '\t' || c == '\n' || c == '\r' || c == '\x0b' || c == '\x0c'

/-- `leadsWith pat l`: the pattern `pat` occurs at the head of `l`. -/
def leadsWith : List Char → List Char → Bool
  | [], _ => true
  | _ :: _, [] => false
  | a :: as, b :: bs => a == b && leadsWith as bs

/-- Python `pat in s` (substring containment). -/
def containsSub (pat : List Char) : List Char → Bool
  | [] => leadsWith pat []
  | s@(_ :: rest) => leadsWith pat s || containsSub pat rest

/-- Worker for `pySplitWs`: `acc` is the current word, reversed. -/
def splitWsAux : List Char → List Char → List (List Char)
  | [], acc => if acc.isEmpty then [] else [acc.reverse]
  | c :: rest, acc =>
    if wsChar c then
      if acc.isEmpty then splitWsAux rest [] else acc.reverse :: splitWsAux rest []
    else splitWsAux rest (c :: acc)

/-- Python `str.split()` — split on whitespace runs, dropping empties. -/
def pySplitWs (s : String) : List String :=
  (splitWsAux s.toList []).map List.asString

/-- Python `str.strip()`. -/
def pyStrip (l : List Char) : List Char :=
  ((l.dropWhile wsChar).reverse.dropWhile wsChar).reverse

/-- Python `str.lower()` (ASCII part, all that the house tags use). -/
def pyLower (s : String) : String := (s.toList.map Char.toLower).asString

/-- Worker for `pyReplace`, with fuel (one unit per emitted position;
the input length suffices since every step consumes at least one input
character). -/
def pyReplaceList (pat rep : List Char) : Nat → List Char → List Char
  | _, [] => []
  | 0, l => l
  | fuel + 1, l@(c :: rest) =>
    if !pat.isEmpty && leadsWith pat l then
      rep ++ pyReplaceList pat rep fuel (l.drop pat.length)
    else c :: pyReplaceList pat rep fuel rest

/-- Python `s.replace(pat, rep)`: every non-overlapping occurrence,
scanned left to right.  (The sources only ever pass non-empty literal
patterns.) -/
def pyReplace (s pat rep : String) : String :=
  (pyReplaceList pat.toList rep.toList s.toList.length s.toList).asString

/-! ### `learning._fingerprint` -/

/-- `learning._fingerprint`: `" ".join(text.lower().split())[:200]`. -/
def fingerprint (text : String) : String :=
  ((String.intercalate " " (pySplitWs (pyLower text))).toList.take 200).asString

/-! ### `AIDrafter._parse_response` — regex and `float()` semantics -/

/-- Python `\d` or a literal dot, the `[\d.]` class. -/
def digitDotChar (c : Char) : Bool := c.isDigit || c == '.'

/-- Python `\w` (ASCII part). -/
def wordChar (c : Char) : Bool := c.isAlphanum || c == '_'

/-- `re.search(label + r"\s*(T+)")` for a character class `T` disjoint
from whitespace: scan start positions left to right; after the literal
label, greedy `\s*` must swallow the whole whitespace run (no `T`
character is whitespace, so backtracking into the run cannot succeed);
then a non-empty greedy run of `T` characters is the group, else the
match at this position fails and the scan moves on. -/
def searchLabelTok (label : List Char) (tok : Char → Bool) : List Char → Option (List Char)
  | [] => none
  | s@(_ :: rest) =>
    if leadsWith label s then
      let after := (s.drop label.length).dropWhile wsChar
      match after.takeWhile tok with
      | [] => searchLabelTok label tok rest
      | t => some t
    else searchLabelTok label tok rest

/-- Index of the last `'\n'` in a list, if any. -/
def lastNl : List Char → Option Nat
  | [] => none
  | a :: as =>
    match lastNl as with
    | some i => some (i + 1)
    | none => if a == '\n' then some 0 else none

/-- Lazy `(.*?)(?=stop|\Z)` with `DOTALL`: everything up to the first
occurrence of the stop string, or the whole list. -/
def takeUntilStop (stop : List Char) : List Char → List Char
  | [] => []
  | s@(a :: rest) => if leadsWith stop s then [] else a :: takeUntilStop stop rest

def replyLabel : List Char := "REPLY:".toList
def confStop : List Char := "\nCONFIDENCE:".toList
def confLabel : List Char := "CONFIDENCE:".toList
def catLabel : List Char := "CATEGORY:".toList

/-- `re.search(r"REPLY:\s*\n(.*?)(?=\nCONFIDENCE:|\Z)", raw, re.DOTALL)`:
at each start position the literal `REPLY:` must be followed by a
whitespace run containing a newline (greedy `\s*` backtracks exactly to
the last newline of the maximal run); the group then runs to the first
`"\nCONFIDENCE:"`, or to the end of the text. -/
def replySearch : List Char → Option (List Char)
  | [] => none
  | s@(_ :: rest) =>
    if leadsWith replyLabel s then
      let after := s.drop replyLabel.length
      match lastNl (after.takeWhile wsChar) with
      | some i => some (takeUntilStop confStop (after.drop (i + 1)))
      | none => replySearch rest
    else replySearch rest

/-- Numeric value of a digit list (most significant first). -/
def natOfDigits (l : List Char) : Nat :=
  l.foldl (fun a c => a * 10 + (c.toNat - 48)) 0

/-- Python `float` applied to a match of `[\d.]+`: accepted iff the
token has at most one dot and at least one digit; the value is the exact
decimal. Anything else (`"."`, `"1.2.3"`, …) raises `ValueError`. -/
def pyFloatTok (tok : List Char) : Option Rat :=
  if tok.isEmpty then none
  else if (tok.filter (· == '.')).length == 0 then
    some (natOfDigits tok)
  else if (tok.filter (· == '.')).length == 1 && tok.length ≥ 2 then
    let ip := tok.takeWhile (fun c => c ≠ '.')
    let fp := (tok.dropWhile (fun c => c ≠ '.')).drop 1
    some ((natOfDigits ip : Rat) + (natOfDigits fp : Rat) / ((10 : Rat) ^ fp.length))
  else none

/-- `ai_drafter.QUESTION_CATEGORIES`. -/
def QUESTION_CATEGORIES : List String :=
  ["WiFi", "CheckIn", "CheckOut", "Bathroom", "Kitchen", "Laundry",
   "Heating", "TV", "Transport", "LocalArea", "LockInfo", "Amenities",
   "EarlyCheckIn", "LateCheckOut", "LuggageStorage", "Complaint",
   "Emergency", "Pricing", "Cancellation", "SpecialRequest", "General"]

/-- The `CATEGORY` extraction of `_parse_response`: first
`CATEGORY:\s*(\w+)` match, defaulted and closed over the category set. -/
def extractCategory (rl : List Char) : String :=
  match searchLabelTok catLabel wordChar rl with
  | some tok =>
    if QUESTION_CATEGORIES.contains tok.asString then tok.asString else "General"
  | none => "General"

/-- `AIDrafter._parse_response`.  The `float(...)` call on the
`CONFIDENCE` group can raise `ValueError` (the group is any non-empty
run of digits and dots, e.g. `"1.2.3"`), which is the `.error` case;
everything else degrades to defaults.  Order of effects follows the
source: draft, then confidence (the raise point), then category. -/
def parseResponse (raw : String) : Except String (String × Rat × String) :=
  let rl := raw.toList
  let draft0 :=
    match replySearch rl with
    | some g => pyStrip g
    | none => pyStrip rl
  let draft := (pyStrip (takeUntilStop confStop draft0)).asString
  match searchLabelTok confLabel digitDotChar rl with
  | some tok =>
    match pyFloatTok tok with
    | none => .error "ValueError: could not convert string to float"
    | some conf => .ok (draft, min (max conf 0) 1, extractCategory rl)
  | none => .ok (draft, 0.7, extractCategory rl)

/-! ### Row types (`backend/app/db/models.py`), restricted to the
columns the embedded services read or write -/

/-- `listings` row (`Listing`). -/
structure Listing where
  name : String
  houseCode : Option String   -- nullable `house_code` ("193" / "195")
deriving Repr, DecidableEq

/-- `reservations` row (`Reservation`).  `check_in` / `check_out` are
non-nullable columns, but the source still guards them for falsiness
(a transient ORM object may carry `None`), so they are `Option`s here. -/
structure Reservation where
  id : Nat
  hosttoolsId : String
  guestName : String
  checkIn : Option Int
  checkOut : Option Int
  numGuests : Option Int
  platform : Option String
  listing : Option Listing    -- resolved relationship; the source guards for `None`
deriving Repr, DecidableEq

/-- `messages` row (`Message`), the columns the drafter and learner use.
`timestamp` is non-nullable (default `utcnow`), hence plain `Int`. -/
structure Message where
  reservationId : Nat
  timestamp : Int
  sender : String
  body : String
  aiGenerated : Bool
  wasEdited : Bool
  originalAiDraft : Option String
  feedbackNote : Option String   -- the route stores `ai_category` here
deriving Repr, DecidableEq

/-- `knowledge_entries` row (`KnowledgeEntry`). -/
structure KnowledgeEntry where
  category : String
  question : Option String
  answer : String
  source : String
  active : Bool
deriving Repr, DecidableEq

/-- `auto_reply_categories` row (`AutoReplyCategory`).  The counters are
`Int` like the SQL `Integer` columns; their defaults are 0. -/
structure AutoReplyCategory where
  category : String
  totalDrafts : Int
  sentUnedited : Int
deriving Repr, DecidableEq

/-- `message_templates` row (`MessageTemplate`). -/
structure MessageTemplate where
  id : Nat
  name : String
  trigger : String
  body : String
  hoursOffset : Int            -- hour of day to send
  enabled : Bool
  houseCode : Option String    -- nullable; "193", "195", or null = both
deriving Repr, DecidableEq

/-- `scheduled_message_log` row (`ScheduledMessageLog`). -/
structure ScheduledMessageLog where
  templateId : Nat
  reservationId : Nat
  bodySent : String
deriving Repr, DecidableEq

/-! ### `AIDrafter._get_relevant_knowledge` -/

/-- One iteration of the `_get_relevant_knowledge` loop: skip
(`continue`) an entry whose lowercased answer carries the other house's
tag, append it to `relevant` otherwise. -/
def grkStep (houseCode : Option String) (relevant : List KnowledgeEntry)
    (entry : KnowledgeEntry) : List KnowledgeEntry :=
  let answerLower := (pyLower entry.answer).toList
  if houseCode == some "193" && containsSub "[195 only]".toList answerLower then
    relevant
  else if houseCode == some "195" && containsSub "[193 only]".toList answerLower then
    relevant
  else relevant ++ [entry]

/-- `AIDrafter._get_relevant_knowledge`: select the active entries, then
walk them, skipping an entry tagged (in its lowercased answer) for the
other house.  The `select(...).where(active == True)` query is the
`filter`; the `for`/`continue` loop is the `foldl` of `grkStep`. -/
def getRelevantKnowledge (houseCode : Option String)
    (table : List KnowledgeEntry) : List KnowledgeEntry :=
  let allEntries := table.filter (·.active)
  allEntries.foldl (grkStep houseCode) []

/-! ### `datetime.strftime` on the epoch-minutes embedding -/

def monthAbbrev : Nat → String
  | 1 => "Jan" | 2 => "Feb" | 3 => "Mar" | 4 => "Apr" | 5 => "May" | 6 => "Jun"
  | 7 => "Jul" | 8 => "Aug" | 9 => "Sep" | 10 => "Oct" | 11 => "Nov" | 12 => "Dec"
  | _ => ""

def pad2 (n : Nat) : String := if n < 10 then "0" ++ toString n else toString n

/-- Day number to proleptic-Gregorian `(year, month, day-of-month)`. -/
def civilFromDays (day : Int) : Int × Nat × Nat :=
  let z := day + 719468
  let era := z.fdiv 146097
  let doe := (z - era * 146097).toNat
  let yoe := (doe - doe / 1460 + doe / 36524 - doe / 146096) / 365
  let doy := doe - (365 * yoe + yoe / 4 - yoe / 100)
  let mp := (5 * doy + 2) / 153
  let d := doy - (153 * mp + 2) / 5 + 1
  let m := if mp < 10 then mp + 3 else mp - 9
  (era * 400 + yoe + (if m ≤ 2 then 1 else 0), m, d)

def dayOfMinutes (dt : Int) : Int := dt.fdiv 1440

def minuteOfDay (dt : Int) : Nat := (dt.emod 1440).toNat

/-- `strftime("%d %b")` (used by `_substitute_placeholders`). -/
def fmtDayMonth (dt : Int) : String :=
  let c := civilFromDays (dayOfMinutes dt)
  pad2 c.2.2 ++ " " ++ monthAbbrev c.2.1

def weekdayAbbrev (day : Int) : String :=
  match ((day + 3).emod 7).toNat with
  | 0 => "Mon" | 1 => "Tue" | 2 => "Wed" | 3 => "Thu" | 4 => "Fri" | 5 => "Sat"
  | _ => "Sun"

/-- `strftime("%a %d %b %Y")` (booking-context dates). -/
def fmtFullDate (dt : Int) : String :=
  let day := dayOfMinutes dt
  let c := civilFromDays day
  weekdayAbbrev day ++ " " ++ pad2 c.2.2 ++ " " ++ monthAbbrev c.2.1 ++ " " ++ toString c.1

/-- `strftime("%d %b %H:%M")` (conversation-line timestamps). -/
def fmtShort (dt : Int) : String :=
  fmtDayMonth dt ++ " " ++ pad2 (minuteOfDay dt / 60) ++ ":" ++ pad2 (minuteOfDay dt % 60)

/-- `strftime("%a %d %b %Y %H:%M UTC")` (the `Today:` field). -/
def fmtNow (dt : Int) : String :=
  fmtFullDate dt ++ " " ++ pad2 (minuteOfDay dt / 60) ++ ":" ++ pad2 (minuteOfDay dt % 60) ++ " UTC"

/-! ### `AIDrafter._build_user_prompt` -/

/-- `guest_name.split()[0] if guest_name else fallback`: the shared
first-name idiom of the drafter, learner and scheduler.  On a non-empty
all-whitespace name, `split()` is `[]` and the `[0]` raises
`IndexError`. -/
def guestFirstToken (guestName : String) (fallback : String) : Except String String :=
  if guestName == "" then .ok fallback
  else
    match pySplitWs guestName with
    | [] => .error "IndexError: list index out of range"
    | w :: _ => .ok w

/-- One rendered conversation-history line.  The source guards
`msg.timestamp` for falsiness, but the column is non-nullable and a
Python `datetime` is always truthy, so the guard is the format branch. -/
def msgLine (m : Message) : String :=
  let role := if m.sender == "guest" then "GUEST" else "HOST"
  "[" ++ fmtShort m.timestamp ++ "] " ++ role ++ ": " ++ m.body

/-- `recent_messages = messages[-20:]` — the Python slice keeps the last
`min(20, n)` elements. -/
def recentMessages (messages : List Message) : List Message :=
  messages.drop (messages.length - 20)

/-- The lines of the conversation-history section of
`_build_user_prompt`. -/
def convLines (messages : List Message) : List String :=
  (recentMessages messages).map msgLine

/-- One knowledge-base line of `_build_user_prompt` (`Q:/A:` form when
the entry has a truthy question, bare-answer form otherwise). -/
def kbLine (e : KnowledgeEntry) : String :=
  match e.question with
  | some q =>
    if q == "" then "[" ++ e.category ++ "] " ++ e.answer
    else "[" ++ e.category ++ "] Q: " ++ q ++ "\nA: " ++ e.answer
  | none => "[" ++ e.category ++ "] " ++ e.answer

/-- The closing task block of the prompt (a literal in the source). -/
def taskBlock : String :=
  "## Your Task\nReply to the guest's latest message. Provide your response in this exact format:\n\nREPLY:\n<your suggested reply here>\n\nCONFIDENCE: <number between 0.0 and 1.0>\nCATEGORY: <one of: WiFi, CheckIn, CheckOut, Bathroom, Kitchen, Laundry, Heating, TV, Transport, LocalArea, LockInfo, Amenities, EarlyCheckIn, LateCheckOut, LuggageStorage, Complaint, Emergency, Pricing, Cancellation, SpecialRequest, General>"

/-- `AIDrafter._build_user_prompt`.  `now` is the ambient
`datetime.utcnow()` made explicit.  The guest-first-name extraction can
raise `IndexError`; note that a present listing with a null
`house_code` renders as Python's `"None"` in the f-string. -/
def buildUserPrompt (reservation : Reservation) (messages : List Message)
    (knowledge : List KnowledgeEntry) (now : Int) : Except String String := do
  let listingName := match reservation.listing with | some l => l.name | none => "Unknown"
  let houseCode := match reservation.listing with
    | some l => match l.houseCode with | some h => h | none => "None"
    | none => "unknown"
  let guestFirst ← guestFirstToken reservation.guestName "Guest"
  let booking :=
    "## Booking Context\n" ++
    "- Guest: " ++ reservation.guestName ++ " (first name: " ++ guestFirst ++ ")\n" ++
    "- Property: " ++ listingName ++ " (House " ++ houseCode ++ ")\n" ++
    "- Check-in: " ++ (match reservation.checkIn with
        | some d => fmtFullDate d | none => "unknown") ++ "\n" ++
    "- Check-out: " ++ (match reservation.checkOut with
        | some d => fmtFullDate d | none => "unknown") ++ "\n" ++
    "- Guests: " ++ (match reservation.numGuests with
        | some n => if n == 0 then "unknown" else toString n | none => "unknown") ++ "\n" ++
    "- Platform: " ++ (match reservation.platform with
        | some p => if p == "" then "unknown" else p | none => "unknown") ++ "\n" ++
    "- Today: " ++ fmtNow now
  let parts := [booking]
  let parts := parts ++
    (if knowledge.isEmpty then []
     else ["## Property Knowledge Base\n" ++
           String.intercalate "\n\n" (knowledge.map kbLine)])
  let parts := parts ++
    ["## Conversation History\n" ++ String.intercalate "\n\n" (convLines messages)]
  let parts := parts ++ [taskBlock]
  return String.intercalate "\n\n" parts

/-! ### `template_scheduler._substitute_placeholders` -/

/-- `_substitute_placeholders(body, reservation, listing)`.  Each
`str.replace` replaces every occurrence; the guest-name step can raise
`IndexError` on a non-empty all-whitespace name; falsy check-in /
check-out / listing / guest-count values degrade to `""`. -/
def substitutePlaceholders (body : String) (reservation : Reservation)
    (listing : Option Listing) : Except String String := do
  let guestFirst ← guestFirstToken reservation.guestName "Guest"
  let checkInFmt := match reservation.checkIn with
    | some d => fmtDayMonth d
    | none => ""
  let checkOutFmt := match reservation.checkOut with
    | some d => fmtDayMonth d
    | none => ""
  let listingName := match listing with | some l => l.name | none => ""
  let numGuestsStr := match reservation.numGuests with
    | some n => if n == 0 then "" else toString n
    | none => ""
  return pyReplace (pyReplace (pyReplace (pyReplace (pyReplace
      body "{guest_name}" guestFirst)
      "{check_in}" checkInFmt)
      "{check_out}" checkOutFmt)
      "{listing_name}" listingName)
      "{num_guests}" numGuestsStr

/-! ### `learning.record_reply_outcome` -/

/-- SQLAlchemy `scalar_one_or_none()` over the rows a query matched:
`None` for zero rows, the row for exactly one, and a raised
`MultipleResultsFound` otherwise. -/
def scalarOneOrNone {α : Type} : List α → Except String (Option α)
  | [] => .ok none
  | [a] => .ok (some a)
  | _ :: _ :: _ => .error "MultipleResultsFound"

/-- `category = message.feedback_note`, falling back to `"General"`
when falsy (absent or empty). -/
def resolvedCategory (message : Message) : String :=
  match message.feedbackNote with
  | some s => if s == "" then "General" else s
  | none => "General"

/-- `ORDER BY timestamp DESC LIMIT 1` over the matched rows: a row of
maximal timestamp (ties resolved by table order, which SQL leaves
unspecified and no claim depends on). -/
def pickLatest : List Message → Option Message
  | [] => none
  | m :: ms =>
    match pickLatest ms with
    | none => some m
    | some b => if b.timestamp > m.timestamp then some b else some m

/-- The storage the learner reads and writes: the per-category stat rows
and the knowledge base. -/
structure LearnState where
  categories : List AutoReplyCategory
  knowledge : List KnowledgeEntry
deriving Repr, DecidableEq

/-- In-place mutation of the (unique) stat row of a category. -/
def bumpCat (cats : List AutoReplyCategory) (name : String)
    (f : AutoReplyCategory → AutoReplyCategory) : List AutoReplyCategory :=
  cats.map (fun c => if c.category == name then f c else c)

/-- `learning.record_reply_outcome`.  `messagesTable` backs the
last-guest-message query.  The result pairs the mutated storage with
the exception that escaped, if any: callers catch it, and mutations
already applied to session objects before the raise remain in place. -/
def recordReplyOutcome (message : Message) (reservation : Reservation)
    (messagesTable : List Message) (st : LearnState) : LearnState × Option String :=
  if !message.aiGenerated then (st, none)
  else
    let category := resolvedCategory message
    match scalarOneOrNone (st.categories.filter (·.category == category)) with
    | .error e => (st, some e)
    | .ok found =>
      let st₁ :=
        match found with
        | some _ => st
        | none => { st with categories := st.categories ++ [(⟨category, 0, 0⟩ : AutoReplyCategory)] }
      let cats₂ := bumpCat st₁.categories category
        (fun c => { c with totalDrafts := c.totalDrafts + 1 })
      let st₂ := { st₁ with categories := cats₂ }
      if !message.wasEdited then
        let cats₃ := bumpCat st₂.categories category
          (fun c => { c with sentUnedited := c.sentUnedited + 1 })
        ({ st₂ with categories := cats₃ }, none)
      else
        let original := match message.originalAiDraft with | some s => s | none => ""
        if original == "" || message.body == "" then (st₂, none)
        else if fingerprint original == fingerprint message.body then (st₂, none)
        else
          let fp := fingerprint message.body
          let learnedSame := st₂.knowledge.filter
            (fun e => e.source == "learned" && e.category == category)
          if learnedSame.any (fun e => fingerprint e.answer == fp) then (st₂, none)
          else
            match guestFirstToken reservation.guestName "guest" with
            | .error e => (st₂, some e)   -- value unused by the source, raise is live
            | .ok _ =>
              let prior := messagesTable.filter (fun m =>
                m.reservationId == reservation.id && m.sender == "guest" &&
                m.timestamp < message.timestamp)
              let questionContext := (pickLatest prior).map (fun m => (m.body.toList.take 200).asString)
              let learned : KnowledgeEntry :=
                { category := category
                  question := match questionContext with
                    | some s => if s == "" then none else some ("Guest asked: " ++ s)
                    | none => none
                  answer := "Preferred reply style: " ++ message.body
                  source := "learned"
                  active := true }
              ({ st₂ with knowledge := st₂.knowledge ++ [learned] }, none)

/-! ### `template_scheduler.check_and_send_templates` -/

/-- `TRIGGER_DATE_MAP`: trigger name ↦ (anchor is check-in?, offset). -/
def TRIGGER_DATE_MAP (trigger : String) : Option (Bool × Int) :=
  if trigger == "day_before_checkin" then some (true, -1)
  else if trigger == "checkin_day" then some (true, 0)
  else if trigger == "day_after_checkin" then some (true, 1)
  else if trigger == "day_before_checkout" then some (false, -1)
  else if trigger == "checkout_day" then some (false, 0)
  else none

/-- The reservation-selection predicate of the scan's date query:
`anchor >= datetime.combine(today + offset, time.min)` and
`anchor < datetime.combine(today + offset + 1, time.min)`; an SQL
`NULL` anchor satisfies neither comparison. -/
def matchesTriggerDate (today : Int) (isCheckIn : Bool) (offset : Int)
    (r : Reservation) : Bool :=
  match (if isCheckIn then r.checkIn else r.checkOut) with
  | some dt => decide ((today + offset) * 1440 ≤ dt) && decide (dt < (today + offset + 1) * 1440)
  | none => false

/-- The `house_code` filter of the scan: with a truthy template scope
and a truthy listing house code, skip when the listing's code differs
from the scope and is not `"both"`. -/
def houseSkip (template : MessageTemplate) (reservation : Reservation) : Bool :=
  match template.houseCode with
  | none => false
  | some tscope =>
    if tscope == "" then false
    else
      let listingHouse : Option String := match reservation.listing with
        | some l => l.houseCode
        | none => none
      match listingHouse with
      | none => false
      | some lh => if lh == "" then false else lh != tscope && lh != "both"

/-- One invocation of the message-send collaborator
(`hosttools.send_message`), instrumented with the (template,
reservation) pair that triggered it and whether it succeeded. -/
structure SendEvent where
  templateId : Nat
  reservationId : Nat
  hosttoolsId : String
  body : String
  success : Bool
deriving Repr, DecidableEq

/-- Accumulating state of one scan: the send invocations so far, the
session's log rows (initial table plus rows added by `session.add`),
and `sent_count`. -/
structure ScanState where
  events : List SendEvent
  logs : List ScheduledMessageLog
  sent : Nat
deriving Repr, DecidableEq

/-- Result of one scan.  `err` is the exception that aborted it, if
any; on abort the session context rolls the added log rows back, but
the send invocations already made remain observable in `events`. -/
structure ScanResult where
  events : List SendEvent
  logs : List ScheduledMessageLog
  sentCount : Nat
  err : Option String
deriving Repr, DecidableEq

/-- The idempotency-guard query plus `scalar_one_or_none` (the session
autoflushes, so rows added earlier in the same scan are visible). -/
def logLookup (logs : List ScheduledMessageLog) (tid rid : Nat) :
    Except String (Option ScheduledMessageLog) :=
  scalarOneOrNone (logs.filter (fun l => l.templateId == tid && l.reservationId == rid))

/-- The per-candidate body of the scan's two nested loops, in source
order: house filter, hour gate, idempotency guard (can raise),
placeholder substitution (can raise), send (a failure is caught and
logged — `continue`), then `session.add` of the log row. -/
def runCandidates (send : String → String → Bool) (nowHour : Int) :
    List (MessageTemplate × Reservation) → ScanState → ScanState × Option String
  | [], st => (st, none)
  | (t, r) :: rest, st =>
    if houseSkip t r then runCandidates send nowHour rest st
    else if nowHour < t.hoursOffset then runCandidates send nowHour rest st
    else
      match logLookup st.logs t.id r.id with
      | .error e => (st, some e)
      | .ok (some _) => runCandidates send nowHour rest st
      | .ok none =>
        match substitutePlaceholders t.body r r.listing with
        | .error e => (st, some e)
        | .ok body =>
          if send r.hosttoolsId body then
            runCandidates send nowHour rest
              { events := st.events ++ [⟨t.id, r.id, r.hosttoolsId, body, true⟩]
                logs := st.logs ++ [⟨t.id, r.id, body⟩]
                sent := st.sent + 1 }
          else
            runCandidates send nowHour rest
              { st with events := st.events ++ [⟨t.id, r.id, r.hosttoolsId, body, false⟩] }

/-- The candidates one enabled template contributes to a scan: nothing
for an unrecognized trigger (warn and `continue`), otherwise the
date-matching reservations in table order. -/
def templateCandidates (today : Int) (reservations : List Reservation)
    (t : MessageTemplate) : List (MessageTemplate × Reservation) :=
  match TRIGGER_DATE_MAP t.trigger with
  | none => []
  | some (isCheckIn, offset) =>
    (reservations.filter (matchesTriggerDate today isCheckIn offset)).map (fun r => (t, r))

/-- All (template, reservation) candidates one scan evaluates, in
evaluation order: enabled templates in table order, each paired with
its date-matching reservations. -/
def scanCandidates (templates : List MessageTemplate)
    (reservations : List Reservation) (today : Int) :
    List (MessageTemplate × Reservation) :=
  (templates.filter (·.enabled)).flatMap (templateCandidates today reservations)

/-- `check_and_send_templates`: one scan over the enabled templates.
The surrounding `get_session` context commits the added log rows on
normal return and rolls them back when an exception escapes. -/
def checkAndSendTemplates (send : String → String → Bool)
    (templates : List MessageTemplate) (reservations : List Reservation)
    (logs0 : List ScheduledMessageLog) (today : Int) (nowHour : Int) : ScanResult :=
  let enabled := templates.filter (·.enabled)
  if enabled.isEmpty then ⟨[], logs0, 0, none⟩
  else
    match runCandidates send nowHour (scanCandidates templates reservations today) ⟨[], logs0, 0⟩ with
    | (st, none) => ⟨st.events, st.logs, st.sent, none⟩
    | (st, some e) => ⟨st.events, logs0, st.sent, some e⟩

/-! ### Claim-side characterizations and counter accessors -/

/-- The property tag of a reservation as the scan reads it
(`reservation.listing.house_code if reservation.listing else None`). -/
def reservationProperty (r : Reservation) : Option String :=
  match r.listing with
  | some l => l.houseCode
  | none => none

/-- "Tagged exclusively for the other property": the knowledge entry's
lowercased answer carries the `[… only]` tag of the house the guest is
not in. -/
def wrongHouseTag (houseCode : Option String) (e : KnowledgeEntry) : Bool :=
  (houseCode == some "193" && containsSub "[195 only]".toList (pyLower e.answer).toList) ||
  (houseCode == some "195" && containsSub "[193 only]".toList (pyLower e.answer).toList)

/-- Total `total_drafts` of a category: the unique row's counter under
the schema's `unique` constraint on `category`, 0 when absent. -/
def catTotal (cats : List AutoReplyCategory) (name : String) : Int :=
  ((cats.filter (·.category == name)).map (·.totalDrafts)).sum

/-- Total `sent_unedited` of a category, as `catTotal`. -/
def catSent (cats : List AutoReplyCategory) (name : String) : Int :=
  ((cats.filter (·.category == name)).map (·.sentUnedited)).sum

/-- The learned rows of a category, the population the dedup guard and
the claims count. -/
def learnedOf (knowledge : List KnowledgeEntry) (name : String) : List KnowledgeEntry :=
  knowledge.filter (fun e => e.source == "learned" && e.category == name)

/-! ### Concrete rows used by witnesses and counterexamples -/

/-- An edited, AI-generated sent message (category `WiFi`). -/
def c3message : Message :=
  ⟨1, 100, "host", "Thanks! The door code is 4321.", true, true,
   some "The door code is 1234.", some "WiFi"⟩

def c3reservation : Reservation :=
  ⟨1, "HT1", "Alice Jones", some 28487520, some 28490400, some 2, some "airbnb",
   some ⟨"195 Room 1", some "195"⟩⟩

/-- Learner storage after the first call on `c3message`. -/
def c3state1 : LearnState := (recordReplyOutcome c3message c3reservation [] ⟨[], []⟩).1

/-- Learner storage after a second, identical call. -/
def c3state2 : LearnState := (recordReplyOutcome c3message c3reservation [] c3state1).1

/-- A template whose `house_code` is the "applies to all" value. -/
def c4template : MessageTemplate :=
  ⟨8, "welcome", "checkin_day", "Hello {guest_name}", 0, true, some "both"⟩

/-- A reservation in house 193 with check-in on day 19783 at 12:00. -/
def c4reservation : Reservation :=
  ⟨1, "HT1", "Alice Jones", some (19783 * 1440 + 720), some (19785 * 1440), some 2,
   some "airbnb", some ⟨"193 Whole House", some "193"⟩⟩

def c1template : MessageTemplate :=
  ⟨7, "welcome", "checkin_day", "Hi {guest_name}", 0, true, none⟩

def c1reservation : Reservation :=
  ⟨1, "HT1", "Alice Jones", some (19783 * 1440 + 720), some (19785 * 1440), some 2,
   some "airbnb", some ⟨"195 Room 1", some "195"⟩⟩

/-- A log table already holding the (7, 1) pair. -/
def c1logs : List ScheduledMessageLog := [⟨7, 1, "Hi Alice"⟩]

def c5template : MessageTemplate :=
  ⟨7, "welcome", "checkin_day", "Hi {guest_name}", 0, true, none⟩

def c5resFail : Reservation :=
  ⟨1, "HT1", "Alice Jones", some (19783 * 1440 + 720), some (19785 * 1440), some 2,
   some "airbnb", some ⟨"195 Room 1", some "195"⟩⟩

def c5resOk : Reservation :=
  ⟨2, "HT2", "Bob Stone", some (19783 * 1440 + 900), some (19786 * 1440), some 1,
   some "airbnb", some ⟨"193 Whole House", some "193"⟩⟩

/-- A send collaborator that is down for reservation `HT1` only. -/
def c5send (hosttoolsId : String) (_body : String) : Bool := hosttoolsId != "HT1"

def c6message (i : Nat) : Message :=
  ⟨1, (i : Int) * 60, "guest", "m" ++ toString i, false, false, none, none⟩

/-- An ordered conversation of 25 messages. -/
def c6messages : List Message := (List.range 25).map c6message

def c7entry193 : KnowledgeEntry :=
  ⟨"WiFi", none, "The router is in the hallway [193 only]", "manual", true⟩

def c7entry195 : KnowledgeEntry :=
  ⟨"WiFi", none, "The router is in the lounge [195 Only]", "manual", true⟩

def c7entryShared : KnowledgeEntry :=
  ⟨"CheckIn", some "Where is the key?", "In the lockbox", "imported", true⟩

def c7entryInactive : KnowledgeEntry :=
  ⟨"WiFi", none, "Old password", "manual", false⟩

def c7table : List KnowledgeEntry :=
  [c7entry193, c7entry195, c7entryShared, c7entryInactive]

/-- An unedited, AI-generated sent message (category `WiFi`). -/
def c8message : Message :=
  ⟨1, 100, "host", "The WiFi password is hunter2.", true, false,
   some "The WiFi password is hunter2.", some "WiFi"⟩

def c8state : LearnState := ⟨[⟨"WiFi", 4, 3⟩, ⟨"General", 7, 2⟩], []⟩

/-- A reservation whose guest name is a single space: truthy in Python,
but `split()` yields `[]` and indexing raises. -/
def c10reservation : Reservation := ⟨1, "HT1", " ", none, none, none, none, none⟩

/-- A reservation with every optional datum missing and an empty guest
name. -/
def c10resMissing : Reservation := ⟨1, "HT1", "", none, none, none, none, none⟩

/-! ## Theorems -/

/-- **C2.**  "For every input string, the draft response parser returns
a (reply, confidence, category) triple and never raises an exception; in
the worst case (no recognizable labels) it returns the entire raw text
stripped as the reply, confidence 0.7, and category General."  The
worst-case half is real, but the never-raises half is false: on
`"CONFIDENCE: 1.2.3"` the `[\d.]+` group is `"1.2.3"` and
`float("1.2.3")` raises `ValueError`, escaping `_parse_response` —
contradicting the function's own docstring ("Falls back gracefully if
the format is unexpected"). -/
theorem parseResponse_raises_on_multidot_and_defaults_otherwise :
    parseResponse "CONFIDENCE: 1.2.3" =
      .error "ValueError: could not convert string to float" ∧
    parseResponse "just some plain text" = .ok ("just some plain text", 0.7, "General") := by
  constructor <;> rfl

/-- **C3.**  "recordReplyOutcome is idempotent with respect to
learned-knowledge creation … a second invocation with a final body whose
fingerprint matches an already-stored learned entry of the same category
inserts no additional entry."  False: the learner stores
`"Preferred reply style: " ++ final` as the answer but dedups by
comparing `fingerprint(entry.answer)` with `fingerprint(final)`, so an
entry it stored itself never matches, and the identical second call
inserts a second `learned` entry (first call: 1 entry, second: 2). -/
theorem recordReplyOutcome_second_call_duplicates :
    (learnedOf c3state1.knowledge "WiFi").length = 1 ∧
    (learnedOf c3state2.knowledge "WiFi").length = 2 ∧
    (recordReplyOutcome c3message c3reservation [] ⟨[], []⟩).2 = none ∧
    (recordReplyOutcome c3message c3reservation [] c3state1).2 = none ∧
    fingerprint c3message.body ≠
      fingerprint ("Preferred reply style: " ++ c3message.body) := by
  refine ⟨rfl, rfl, rfl, rfl, ?_⟩
  decide

/-- One selector iteration keeps an entry iff it does not carry the
other house's tag. -/
theorem grkStep_eq (houseCode : Option String) (relevant : List KnowledgeEntry)
    (e : KnowledgeEntry) :
    grkStep houseCode relevant e =
      if wrongHouseTag houseCode e then relevant else relevant ++ [e] := by
  cases houseCode with
  | none => simp [grkStep, wrongHouseTag]
  | some s =>
    by_cases h193 : s = "193"
    · subst h193
      simp [grkStep, wrongHouseTag]
    · by_cases h195 : s = "195"
      · subst h195
        simp [grkStep, wrongHouseTag, h193]
      · simp [grkStep, wrongHouseTag, h193, h195]

/-- The accumulation loop of `_get_relevant_knowledge` is a filter. -/
theorem grk_loop (houseCode : Option String) (l acc : List KnowledgeEntry) :
    (l.foldl (grkStep houseCode) acc)
    = acc ++ l.filter (fun e => !wrongHouseTag houseCode e) := by
  induction l generalizing acc with
  | nil => simp
  | cons e l ih =>
    rw [List.foldl_cons, grkStep_eq, List.filter_cons]
    cases hW : wrongHouseTag houseCode e
    · simp [ih, List.append_assoc]
    · simp [ih]

/-- **C7.**  "For every set of active knowledge entries and every
property scope, the Knowledge Selector returns exactly the entries not
tagged exclusively for the other property … with no property scope,
every active entry is included."  An entry is in the selector's output
iff it is an active table entry whose lowercased answer does not carry
the other house's `[… only]` tag; with no house scope the output is all
active entries. -/
theorem getRelevantKnowledge_spec (houseCode : Option String)
    (table : List KnowledgeEntry) (e : KnowledgeEntry) :
    (e ∈ getRelevantKnowledge houseCode table ↔
      e ∈ table ∧ e.active = true ∧ wrongHouseTag houseCode e = false) ∧
    (houseCode = none →
      getRelevantKnowledge houseCode table = table.filter (·.active)) := by
  have h := grk_loop houseCode (table.filter (·.active)) []
  constructor
  · rw [getRelevantKnowledge, h]
    simp only [List.nil_append, List.mem_filter, Bool.not_eq_true', and_assoc,
      decide_eq_true_eq]
  · intro hc
    subst hc
    rw [getRelevantKnowledge, h]
    have hw : ∀ x : KnowledgeEntry, wrongHouseTag none x = false := by
      intro x; rfl
    simp [hw]

/-- Instantiation of the C7 theorem: house 193 excludes the
`[195 Only]`-tagged entry (case-insensitively) and keeps the rest. -/
theorem getRelevantKnowledge_spec_witness :
    (c7entry195 ∈ getRelevantKnowledge (some "193") c7table ↔
      c7entry195 ∈ c7table ∧ c7entry195.active = true ∧
        wrongHouseTag (some "193") c7entry195 = false) ∧
    ((some "193" : Option String) = none →
      getRelevantKnowledge (some "193") c7table = c7table.filter (·.active)) :=
  getRelevantKnowledge_spec (some "193") c7table c7entry195

/-- **C6.**  "For every reservation and every ordered list of N
conversation messages with N > 20, the prompt assembler's
conversation-history section contains exactly the last 20 messages and
no others, rendered oldest-first among those kept."  The rendered
conversation lines (`convLines`, the list `_build_user_prompt` joins
into its history section) have length exactly 20, and the i-th line is
the rendering of message `N - 20 + i` of the input. -/
theorem convLines_last_twenty (messages : List Message) (h : 20 < messages.length) :
    (convLines messages).length = 20 ∧
    ∀ i : Nat, (convLines messages)[i]? = (messages[messages.length - 20 + i]?).map msgLine := by
  unfold convLines recentMessages
  constructor
  · simp only [List.length_map, List.length_drop]
    omega
  · intro i
    simp [List.getElem?_map, List.getElem?_drop]

/-- Instantiation of the C6 theorem at 25 concrete messages: exactly
messages 6 through 25 appear, in order. -/
theorem convLines_last_twenty_witness :
    20 < c6messages.length ∧
    ((convLines c6messages).length = 20 ∧
      ∀ i : Nat, (convLines c6messages)[i]? =
        (c6messages[c6messages.length - 20 + i]?).map msgLine) :=
  ⟨by decide, convLines_last_twenty c6messages (by decide)⟩

/-- **C10 (counterexample).**  Placeholder substitution is not total:
a guest name of a single space is truthy, `split()` returns `[]`, and
`[0]` raises `IndexError`. -/
theorem substitutePlaceholders_raises_on_blank_name :
    substitutePlaceholders "Hi {guest_name}" c10reservation none =
      .error "IndexError: list index out of range" := rfl

/-- **C10 (amended).**  Provided the guest name, when non-empty,
contains a non-whitespace character, substitution is total and silently
degrades on missing data: a missing guest name substitutes `"Guest"`, a
missing check-in/check-out date, listing or guest count substitutes the
empty string, and every placeholder is replaced rather than left to
raise. -/
theorem substitutePlaceholders_spec (body : String) (r : Reservation)
    (listing : Option Listing)
    (hname : r.guestName = "" ∨ pySplitWs r.guestName ≠ []) :
    ∃ gf, (r.guestName = "" → gf = "Guest") ∧
      substitutePlaceholders body r listing = .ok
        (pyReplace (pyReplace (pyReplace (pyReplace (pyReplace
          body "{guest_name}" gf)
          "{check_in}" (match r.checkIn with | some d => fmtDayMonth d | none => ""))
          "{check_out}" (match r.checkOut with | some d => fmtDayMonth d | none => ""))
          "{listing_name}" (match listing with | some l => l.name | none => ""))
          "{num_guests}" (match r.numGuests with
            | some n => if n == 0 then "" else toString n | none => "")) := by
  by_cases hempty : r.guestName = ""
  · refine ⟨"Guest", fun _ => rfl, ?_⟩
    simp only [substitutePlaceholders, guestFirstToken, hempty]
    rfl
  · rcases hname with h | h
    · exact absurd h hempty
    · cases hw : pySplitWs r.guestName with
      | nil => exact absurd hw h
      | cons w ws =>
        refine ⟨w, fun he => absurd he hempty, ?_⟩
        have hbe : (r.guestName == "") = false := by
          simp [hempty]
        simp only [substitutePlaceholders, guestFirstToken, hbe, hw]
        rfl

/-- Instantiation of the C10 amended theorem at a reservation with
every datum missing. -/
theorem substitutePlaceholders_spec_witness :
    (c10resMissing.guestName = "" ∨ pySplitWs c10resMissing.guestName ≠ []) ∧
    (∃ gf, (c10resMissing.guestName = "" → gf = "Guest") ∧
      substitutePlaceholders "Hi {guest_name}, {check_in}-{check_out}, {listing_name}, {num_guests}" c10resMissing none = .ok
        (pyReplace (pyReplace (pyReplace (pyReplace (pyReplace
          "Hi {guest_name}, {check_in}-{check_out}, {listing_name}, {num_guests}"
          "{guest_name}" gf)
          "{check_in}" (match c10resMissing.checkIn with | some d => fmtDayMonth d | none => ""))
          "{check_out}" (match c10resMissing.checkOut with | some d => fmtDayMonth d | none => ""))
          "{listing_name}" (match (none : Option Listing) with | some l => l.name | none => ""))
          "{num_guests}" (match c10resMissing.numGuests with
            | some n => if n == 0 then "" else toString n | none => ""))) :=
  ⟨Or.inl rfl,
   substitutePlaceholders_spec _ c10resMissing none (Or.inl rfl)⟩

/-- **C4 (counterexample).**  "… a reservation or template carrying the
special 'applies to all' scope value is always treated as matching
(never skipped for scope)."  False for the template side: the scan's
filter special-cases `"both"` only on the reservation's listing, so a
template whose `house_code` is `"both"` skips a house-193 reservation
that its trigger date matched, and the scan sends nothing. -/
theorem houseSkip_skips_applies_to_all_template :
    c4template.houseCode = some "both" ∧
    houseSkip c4template c4reservation = true ∧
    (c4template, c4reservation) ∈ scanCandidates [c4template] [c4reservation] 19783 ∧
    (checkAndSendTemplates (fun _ _ => true) [c4template] [c4reservation] [] 19783 12).events = [] := by
  refine ⟨rfl, rfl, ?_, rfl⟩
  decide

/-- **C4 (amended).**  During a scan a candidate reservation is skipped
for scope exactly when the template's scope is non-empty, the
reservation's property (its listing's house code) is present and
non-empty, and that property differs from both the scope and the
reservation-side "applies to all" value `"both"`.  In particular a
reservation tagged `"both"`, or with no property, is never skipped, and
an absent or empty template scope never filters — but a template whose
scope is literally `"both"` filters like any ordinary value. -/
theorem houseSkip_iff (t : MessageTemplate) (r : Reservation) :
    houseSkip t r = true ↔
      ∃ ts lh, t.houseCode = some ts ∧ ts ≠ "" ∧
        reservationProperty r = some lh ∧ lh ≠ "" ∧ lh ≠ ts ∧ lh ≠ "both" := by
  unfold houseSkip reservationProperty
  cases t.houseCode with
  | none => simp
  | some ts =>
    by_cases hts : ts = ""
    · simp [hts]
    · cases r.listing with
      | none => simp [hts]
      | some l =>
        rcases hlc : l.houseCode with _ | lh
        · simp [hts, hlc]
        · by_cases hlh : lh = ""
          · simp [hts, hlc, hlh]
          · simp [hts, hlc, hlh, bne_iff_ne]

/-- Instantiation of the C4 amended theorem at the counterexample
template and reservation. -/
theorem houseSkip_iff_witness :
    houseSkip c4template c4reservation = true ↔
      ∃ ts lh, c4template.houseCode = some ts ∧ ts ≠ "" ∧
        reservationProperty c4reservation = some lh ∧ lh ≠ "" ∧ lh ≠ ts ∧ lh ≠ "both" :=
  houseSkip_iff c4template c4reservation

/-- How `bumpCat` moves a counter sum: rows of the bumped category gain
`δ` each, rows of any other category are untouched. -/
theorem sum_bumpCat (g : AutoReplyCategory → Int)
    (f : AutoReplyCategory → AutoReplyCategory)
    (hcat : ∀ x, (f x).category = x.category) (δ : Int)
    (hg : ∀ x, g (f x) = g x + δ)
    (cats : List AutoReplyCategory) (c : String) :
    ((((bumpCat cats c f).filter (·.category == c)).map g).sum
      = ((cats.filter (·.category == c)).map g).sum
        + δ * ((cats.filter (·.category == c)).length : Int)) ∧
    (∀ n, n ≠ c → (((bumpCat cats c f).filter (·.category == n)).map g).sum
      = ((cats.filter (·.category == n)).map g).sum) := by
  induction cats with
  | nil => constructor <;> simp [bumpCat]
  | cons a l ih =>
    obtain ⟨ih1, ih2⟩ := ih
    constructor
    · by_cases hac : a.category = c
      · simp only [bumpCat, List.map_cons, List.filter_cons, hcat, hac, beq_self_eq_true,
          if_true, List.sum_cons, List.length_cons, hg] at ih1 ⊢
        push_cast
        rw [ih1]
        ring
      · simp only [bumpCat, List.map_cons, List.filter_cons, hcat, beq_iff_eq, hac,
          if_false, ite_false] at ih1 ⊢
        simpa [hac] using ih1
    · intro n hn
      by_cases han : a.category = n
      · have hnc : ¬a.category = c := fun hh => hn (han.symm.trans hh)
        simp only [bumpCat, List.map_cons, List.filter_cons, hcat, beq_iff_eq] at ih2 ⊢
        simp [hn, han, hnc, ih2 n hn]
      · simp only [bumpCat, List.map_cons, List.filter_cons, hcat, beq_iff_eq] at ih2 ⊢
        by_cases hac : a.category = c
        · simp [hcat, hac, han, Ne.symm hn, ih2 n hn]
        · simp [hac, han, ih2 n hn]

/-- `bumpCat` with a category-preserving update does not change which
rows a category filter selects. -/
theorem length_filter_bumpCat (f : AutoReplyCategory → AutoReplyCategory)
    (hcat : ∀ x, (f x).category = x.category) (cats : List AutoReplyCategory)
    (c n : String) :
    ((bumpCat cats c f).filter (·.category == n)).length
      = (cats.filter (·.category == n)).length := by
  induction cats with
  | nil => rfl
  | cons a l ih =>
    simp only [bumpCat, List.map_cons, List.filter_cons, hcat, beq_iff_eq] at ih ⊢
    by_cases hac : a.category = c <;> by_cases han : a.category = n <;>
      by_cases hcn : c = n <;> simp_all

theorem catTotal_append (l₁ l₂ : List AutoReplyCategory) (n : String) :
    catTotal (l₁ ++ l₂) n = catTotal l₁ n + catTotal l₂ n := by
  simp [catTotal, List.filter_append]

theorem catSent_append (l₁ l₂ : List AutoReplyCategory) (n : String) :
    catSent (l₁ ++ l₂) n = catSent l₁ n + catSent l₂ n := by
  simp [catSent, List.filter_append]

theorem catTotal_zero_row (c n : String) : catTotal [⟨c, 0, 0⟩] n = 0 := by
  by_cases h : ((⟨c, 0, 0⟩ : AutoReplyCategory).category == n) = true <;>
    simp [catTotal, List.filter_cons, h]

theorem catSent_zero_row (c n : String) : catSent [⟨c, 0, 0⟩] n = 0 := by
  by_cases h : ((⟨c, 0, 0⟩ : AutoReplyCategory).category == n) = true <;>
    simp [catSent, List.filter_cons, h]

theorem catTotal_bumpT_self (cats : List AutoReplyCategory) (c : String) :
    catTotal (bumpCat cats c (fun x => { x with totalDrafts := x.totalDrafts + 1 })) c
      = catTotal cats c + ((cats.filter (·.category == c)).length : Int) := by
  have h := (sum_bumpCat (·.totalDrafts)
    (fun x => { x with totalDrafts := x.totalDrafts + 1 })
    (fun _ => rfl) 1 (fun _ => rfl) cats c).1
  simpa [catTotal] using h

theorem catTotal_bumpT_ne (cats : List AutoReplyCategory) (c n : String) (h : n ≠ c) :
    catTotal (bumpCat cats c (fun x => { x with totalDrafts := x.totalDrafts + 1 })) n
      = catTotal cats n := by
  have hh := (sum_bumpCat (·.totalDrafts)
    (fun x => { x with totalDrafts := x.totalDrafts + 1 })
    (fun _ => rfl) 1 (fun _ => rfl) cats c).2 n h
  simpa [catTotal] using hh

theorem catSent_bumpT (cats : List AutoReplyCategory) (c n : String) :
    catSent (bumpCat cats c (fun x => { x with totalDrafts := x.totalDrafts + 1 })) n
      = catSent cats n := by
  by_cases h : n = c
  · subst h
    have hh := (sum_bumpCat (·.sentUnedited)
      (fun x => { x with totalDrafts := x.totalDrafts + 1 })
      (fun _ => rfl) 0 (fun _ => by ring) cats n).1
    simpa [catSent] using hh
  · have hh := (sum_bumpCat (·.sentUnedited)
      (fun x => { x with totalDrafts := x.totalDrafts + 1 })
      (fun _ => rfl) 0 (fun _ => by ring) cats c).2 n h
    simpa [catSent] using hh

theorem catTotal_bumpS (cats : List AutoReplyCategory) (c n : String) :
    catTotal (bumpCat cats c (fun x => { x with sentUnedited := x.sentUnedited + 1 })) n
      = catTotal cats n := by
  by_cases h : n = c
  · subst h
    have hh := (sum_bumpCat (·.totalDrafts)
      (fun x => { x with sentUnedited := x.sentUnedited + 1 })
      (fun _ => rfl) 0 (fun _ => by ring) cats n).1
    simpa [catTotal] using hh
  · have hh := (sum_bumpCat (·.totalDrafts)
      (fun x => { x with sentUnedited := x.sentUnedited + 1 })
      (fun _ => rfl) 0 (fun _ => by ring) cats c).2 n h
    simpa [catTotal] using hh

theorem catSent_bumpS_self (cats : List AutoReplyCategory) (c : String) :
    catSent (bumpCat cats c (fun x => { x with sentUnedited := x.sentUnedited + 1 })) c
      = catSent cats c + ((cats.filter (·.category == c)).length : Int) := by
  have h := (sum_bumpCat (·.sentUnedited)
    (fun x => { x with sentUnedited := x.sentUnedited + 1 })
    (fun _ => rfl) 1 (fun _ => rfl) cats c).1
  simpa [catSent] using h

theorem catSent_bumpS_ne (cats : List AutoReplyCategory) (c n : String) (h : n ≠ c) :
    catSent (bumpCat cats c (fun x => { x with sentUnedited := x.sentUnedited + 1 })) n
      = catSent cats n := by
  have hh := (sum_bumpCat (·.sentUnedited)
    (fun x => { x with sentUnedited := x.sentUnedited + 1 })
    (fun _ => rfl) 1 (fun _ => rfl) cats c).2 n h
  simpa [catSent] using hh

/-- **C8.**  "For every AI-generated sent message with was_edited
false, recordReplyOutcome increments its category's total_drafts counter
by exactly 1 and its sent_unedited counter by exactly 1 (creating the
category's stat row with initial counters on first use), and creates no
knowledge entry."  The uniqueness hypothesis on the category's stat rows
is the schema's `unique` constraint on `auto_reply_categories.category`;
counters of every other category are additionally shown unchanged. -/
theorem recordReplyOutcome_unedited_spec (message : Message)
    (reservation : Reservation) (messagesTable : List Message) (st : LearnState)
    (hai : message.aiGenerated = true) (hne : message.wasEdited = false)
    (hu : (st.categories.filter (·.category == resolvedCategory message)).length ≤ 1) :
    (recordReplyOutcome message reservation messagesTable st).2 = none ∧
    (recordReplyOutcome message reservation messagesTable st).1.knowledge = st.knowledge ∧
    catTotal (recordReplyOutcome message reservation messagesTable st).1.categories
        (resolvedCategory message)
      = catTotal st.categories (resolvedCategory message) + 1 ∧
    catSent (recordReplyOutcome message reservation messagesTable st).1.categories
        (resolvedCategory message)
      = catSent st.categories (resolvedCategory message) + 1 ∧
    ∀ n, n ≠ resolvedCategory message →
      catTotal (recordReplyOutcome message reservation messagesTable st).1.categories n
        = catTotal st.categories n ∧
      catSent (recordReplyOutcome message reservation messagesTable st).1.categories n
        = catSent st.categories n := by
  cases hfl : st.categories.filter (·.category == resolvedCategory message) with
  | nil =>
    simp only [recordReplyOutcome, hai, hne, hfl, scalarOneOrNone, Bool.not_true,
      Bool.not_false, Bool.false_eq_true, if_false, if_true]
    refine ⟨trivial, trivial, ?_, ?_, ?_⟩
    · rw [catTotal_bumpS, catTotal_bumpT_self, catTotal_append, catTotal_zero_row]
      simp [List.filter_append, hfl, List.filter_cons]
    · rw [catSent_bumpS_self, catSent_bumpT, catSent_append, catSent_zero_row,
        length_filter_bumpCat (fun x => { x with totalDrafts := x.totalDrafts + 1 })
          (fun _ => rfl)]
      simp [List.filter_append, hfl, List.filter_cons]
    · intro n hn
      refine ⟨?_, ?_⟩
      · rw [catTotal_bumpS, catTotal_bumpT_ne _ _ _ hn, catTotal_append, catTotal_zero_row]
        ring
      · rw [catSent_bumpS_ne _ _ _ hn, catSent_bumpT, catSent_append, catSent_zero_row]
        ring
  | cons a tail =>
    cases tail with
    | nil =>
      simp only [recordReplyOutcome, hai, hne, hfl, scalarOneOrNone, Bool.not_true,
        Bool.not_false, Bool.false_eq_true, if_false, if_true]
      refine ⟨trivial, trivial, ?_, ?_, ?_⟩
      · rw [catTotal_bumpS, catTotal_bumpT_self, hfl]
        simp
      · rw [catSent_bumpS_self, catSent_bumpT,
          length_filter_bumpCat (fun x => { x with totalDrafts := x.totalDrafts + 1 })
            (fun _ => rfl), hfl]
        simp
      · intro n hn
        exact ⟨by rw [catTotal_bumpS, catTotal_bumpT_ne _ _ _ hn],
          by rw [catSent_bumpS_ne _ _ _ hn, catSent_bumpT]⟩
    | cons b t2 =>
      rw [hfl] at hu
      simp at hu

/-- Instantiation of the C8 theorem: an unedited AI message in category
`WiFi` against a store holding WiFi at (4, 3) and General at (7, 2). -/
theorem recordReplyOutcome_unedited_spec_witness :
    (recordReplyOutcome c8message c3reservation [] c8state).2 = none ∧
    (recordReplyOutcome c8message c3reservation [] c8state).1.knowledge = c8state.knowledge ∧
    catTotal (recordReplyOutcome c8message c3reservation [] c8state).1.categories
        (resolvedCategory c8message)
      = catTotal c8state.categories (resolvedCategory c8message) + 1 ∧
    catSent (recordReplyOutcome c8message c3reservation [] c8state).1.categories
        (resolvedCategory c8message)
      = catSent c8state.categories (resolvedCategory c8message) + 1 ∧
    ∀ n, n ≠ resolvedCategory c8message →
      catTotal (recordReplyOutcome c8message c3reservation [] c8state).1.categories n
        = catTotal c8state.categories n ∧
      catSent (recordReplyOutcome c8message c3reservation [] c8state).1.categories n
        = catSent c8state.categories n :=
  recordReplyOutcome_unedited_spec c8message c3reservation [] c8state rfl rfl (by decide)

/-- Appending a fresh zero-count stat row preserves the counter
invariant. -/
theorem inv_append_zero (cats : List AutoReplyCategory) (c : String)
    (h : ∀ x ∈ cats, x.sentUnedited ≤ x.totalDrafts) :
    ∀ x ∈ cats ++ [(⟨c, 0, 0⟩ : AutoReplyCategory)], x.sentUnedited ≤ x.totalDrafts := by
  intro x hx
  rcases List.mem_append.mp hx with hx | hx
  · exact h x hx
  · simp only [List.mem_singleton] at hx
    subst hx
    exact le_refl 0

/-- Bumping `total_drafts` preserves the counter invariant. -/
theorem inv_bumpT (cats : List AutoReplyCategory) (c : String)
    (h : ∀ x ∈ cats, x.sentUnedited ≤ x.totalDrafts) :
    ∀ x ∈ bumpCat cats c (fun y => { y with totalDrafts := y.totalDrafts + 1 }),
      x.sentUnedited ≤ x.totalDrafts := by
  intro x hx
  rcases List.mem_map.mp hx with ⟨y, hy, rfl⟩
  have := h y hy
  by_cases hyc : (y.category == c) = true <;> simp [hyc] <;> omega

/-- Bumping `total_drafts` and then `sent_unedited` of the same
category preserves the counter invariant. -/
theorem inv_bumpTS (cats : List AutoReplyCategory) (c : String)
    (h : ∀ x ∈ cats, x.sentUnedited ≤ x.totalDrafts) :
    ∀ x ∈ bumpCat (bumpCat cats c (fun y => { y with totalDrafts := y.totalDrafts + 1 }))
        c (fun y => { y with sentUnedited := y.sentUnedited + 1 }),
      x.sentUnedited ≤ x.totalDrafts := by
  intro x hx
  rcases List.mem_map.mp hx with ⟨y, hy, rfl⟩
  rcases List.mem_map.mp hy with ⟨z, hz, rfl⟩
  have := h z hz
  by_cases hzc : (z.category == c) = true <;> simp [hzc] <;> omega

/-- **C9.**  "The invariant sent_unedited ≤ total_drafts holds for
every AutoReplyCategory row and is preserved by every invocation of
recordReplyOutcome": a fresh stat row starts at (0, 0), `total_drafts`
rises on every AI outcome, and `sent_unedited` rises only in the same
invocation that also raised `total_drafts` — so the invariant carries
over to the resulting store, on the normal and on the exceptional
path alike. -/
theorem recordReplyOutcome_preserves_invariant (message : Message)
    (reservation : Reservation) (messagesTable : List Message) (st : LearnState)
    (hinv : ∀ x ∈ st.categories, x.sentUnedited ≤ x.totalDrafts) :
    ∀ x ∈ (recordReplyOutcome message reservation messagesTable st).1.categories,
      x.sentUnedited ≤ x.totalDrafts := by
  simp only [recordReplyOutcome]
  split
  · exact hinv
  · split
    · exact hinv
    · rename_i found heq
      have hbase : ∀ x ∈ (match found with
          | some _ => st
          | none => { st with categories :=
              st.categories ++ [(⟨resolvedCategory message, 0, 0⟩ : AutoReplyCategory)] }).categories,
          x.sentUnedited ≤ x.totalDrafts := by
        cases found with
        | some a => exact hinv
        | none => exact inv_append_zero _ _ hinv
      split
      · exact inv_bumpTS _ _ hbase
      · repeat' split
        all_goals exact inv_bumpT _ _ hbase

/-- Instantiation of the C9 theorem at the concrete unedited scenario:
the bumped WiFi row (5, 4) of the resulting store still satisfies the
invariant. -/
theorem recordReplyOutcome_preserves_invariant_witness :
    (⟨"WiFi", 5, 4⟩ : AutoReplyCategory).sentUnedited ≤
      (⟨"WiFi", 5, 4⟩ : AutoReplyCategory).totalDrafts :=
  recordReplyOutcome_preserves_invariant c8message c3reservation [] c8state (by decide)
    ⟨"WiFi", 5, 4⟩ (by decide)

/-- `scalar_one_or_none` answers `None` exactly on an empty row set. -/
theorem scalarOneOrNone_ok_none {α : Type} {l : List α}
    (h : scalarOneOrNone l = .ok none) : l = [] := by
  cases l with
  | nil => rfl
  | cons a t => cases t <;> simp [scalarOneOrNone] at h

/-- `scalar_one_or_none` cannot raise on at most one row. -/
theorem scalarOneOrNone_of_le_one {α : Type} {l : List α} (h : l.length ≤ 1) :
    ∃ o, scalarOneOrNone l = .ok o := by
  cases l with
  | nil => exact ⟨none, rfl⟩
  | cons a t =>
    cases t with
    | nil => exact ⟨some a, rfl⟩
    | cons b t2 => simp at h

/-- Substitution succeeds whenever the guest name is empty or has a
non-whitespace token. -/
theorem guestFirstToken_isOk (gn fallback : String)
    (hname : gn = "" ∨ pySplitWs gn ≠ []) :
    ∃ w, guestFirstToken gn fallback = .ok w := by
  by_cases hempty : gn = ""
  · exact ⟨fallback, by simp [guestFirstToken, hempty]⟩
  · rcases hname with h | h
    · exact absurd h hempty
    · cases hw : pySplitWs gn with
      | nil => exact absurd hw h
      | cons w ws => exact ⟨w, by simp [guestFirstToken, hempty, hw]⟩

theorem substitutePlaceholders_isOk (body : String) (r : Reservation)
    (listing : Option Listing)
    (hname : r.guestName = "" ∨ pySplitWs r.guestName ≠ []) :
    ∃ out, substitutePlaceholders body r listing = .ok out := by
  cases hres : substitutePlaceholders body r listing with
  | ok out => exact ⟨out, rfl⟩
  | error e =>
    exfalso
    obtain ⟨w, hw⟩ := guestFirstToken_isOk r.guestName "Guest" hname
    simp [substitutePlaceholders, hw] at hres

/-- One scan only appends send events. -/
theorem runCandidates_events_mono (send : String → String → Bool) (nowHour : Int) :
    ∀ (cands : List (MessageTemplate × Reservation)) (st : ScanState),
      ∃ tail, (runCandidates send nowHour cands st).1.events = st.events ++ tail := by
  intro cands
  induction cands with
  | nil => exact fun st => ⟨[], by simp [runCandidates]⟩
  | cons c rest ih =>
    rcases c with ⟨t, r⟩
    intro st
    simp only [runCandidates]
    by_cases h1 : houseSkip t r = true
    · rw [if_pos h1]; exact ih st
    · rw [if_neg h1]
      by_cases h2 : nowHour < t.hoursOffset
      · rw [if_pos h2]; exact ih st
      · rw [if_neg h2]
        cases hlk : logLookup st.logs t.id r.id with
        | error e0 => exact ⟨[], by simp⟩
        | ok o =>
          cases o with
          | some row => exact ih st
          | none =>
            cases hsb : substitutePlaceholders t.body r r.listing with
            | error e0 => exact ⟨[], by simp⟩
            | ok body =>
              dsimp only
              by_cases hs : send r.hosttoolsId body = true
              · rw [if_pos hs]
                obtain ⟨tail, htail⟩ := ih
                  { events := st.events ++ [⟨t.id, r.id, r.hosttoolsId, body, true⟩]
                    logs := st.logs ++ [⟨t.id, r.id, body⟩]
                    sent := st.sent + 1 }
                exact ⟨⟨t.id, r.id, r.hosttoolsId, body, true⟩ :: tail,
                  by rw [htail]; simp⟩
              · rw [if_neg hs]
                obtain ⟨tail, htail⟩ := ih
                  { st with events := st.events ++ [⟨t.id, r.id, r.hosttoolsId, body, false⟩] }
                exact ⟨⟨t.id, r.id, r.hosttoolsId, body, false⟩ :: tail,
                  by rw [htail]; simp⟩

/-- One scan only appends log rows. -/
theorem runCandidates_logs_mono (send : String → String → Bool) (nowHour : Int) :
    ∀ (cands : List (MessageTemplate × Reservation)) (st : ScanState),
      ∃ tail, (runCandidates send nowHour cands st).1.logs = st.logs ++ tail := by
  intro cands
  induction cands with
  | nil => exact fun st => ⟨[], by simp [runCandidates]⟩
  | cons c rest ih =>
    rcases c with ⟨t, r⟩
    intro st
    simp only [runCandidates]
    by_cases h1 : houseSkip t r = true
    · rw [if_pos h1]; exact ih st
    · rw [if_neg h1]
      by_cases h2 : nowHour < t.hoursOffset
      · rw [if_pos h2]; exact ih st
      · rw [if_neg h2]
        cases hlk : logLookup st.logs t.id r.id with
        | error e0 => exact ⟨[], by simp⟩
        | ok o =>
          cases o with
          | some row => exact ih st
          | none =>
            cases hsb : substitutePlaceholders t.body r r.listing with
            | error e0 => exact ⟨[], by simp⟩
            | ok body =>
              dsimp only
              by_cases hs : send r.hosttoolsId body = true
              · rw [if_pos hs]
                obtain ⟨tail, htail⟩ := ih
                  { events := st.events ++ [⟨t.id, r.id, r.hosttoolsId, body, true⟩]
                    logs := st.logs ++ [⟨t.id, r.id, body⟩]
                    sent := st.sent + 1 }
                exact ⟨⟨t.id, r.id, body⟩ :: tail, by rw [htail]; simp⟩
              · rw [if_neg hs]
                exact ih _

/-- Once a log row for a (template, reservation) pair is present, a
scan's candidate loop never invokes the send collaborator for that pair
(log rows only accumulate, and the guard checks before every send). -/
theorem runCandidates_no_event_of_logged (send : String → String → Bool)
    (nowHour : Int) (tid rid : Nat) :
    ∀ (cands : List (MessageTemplate × Reservation)) (st : ScanState),
      (∃ l ∈ st.logs, l.templateId = tid ∧ l.reservationId = rid) →
      (∀ e ∈ st.events, ¬(e.templateId = tid ∧ e.reservationId = rid)) →
      ∀ e ∈ (runCandidates send nowHour cands st).1.events,
        ¬(e.templateId = tid ∧ e.reservationId = rid) := by
  intro cands
  induction cands with
  | nil => intro st _ hev e he; exact hev e he
  | cons c rest ih =>
    rcases c with ⟨t, r⟩
    intro st hlog hev
    simp only [runCandidates]
    by_cases h1 : houseSkip t r = true
    · rw [if_pos h1]; exact ih st hlog hev
    · rw [if_neg h1]
      by_cases h2 : nowHour < t.hoursOffset
      · rw [if_pos h2]; exact ih st hlog hev
      · rw [if_neg h2]
        cases hlk : logLookup st.logs t.id r.id with
        | error e0 => exact hev
        | ok o =>
          cases o with
          | some row => exact ih st hlog hev
          | none =>
            have hne_pair : ¬(t.id = tid ∧ r.id = rid) := by
              rintro ⟨het, her⟩
              obtain ⟨l, hl, hlt, hlr⟩ := hlog
              have hmem : l ∈ st.logs.filter
                  (fun l => l.templateId == t.id && l.reservationId == r.id) :=
                List.mem_filter.mpr ⟨hl, by simp [hlt, hlr, het, her]⟩
              have hempty : st.logs.filter
                  (fun l => l.templateId == t.id && l.reservationId == r.id) = [] :=
                scalarOneOrNone_ok_none hlk
              rw [hempty] at hmem
              simp at hmem
            cases hsb : substitutePlaceholders t.body r r.listing with
            | error e0 => exact hev
            | ok body =>
              dsimp only
              have hev' : ∀ s : Bool, ∀ e ∈ st.events ++
                  [(⟨t.id, r.id, r.hosttoolsId, body, s⟩ : SendEvent)],
                  ¬(e.templateId = tid ∧ e.reservationId = rid) := by
                intro s e he
                rcases List.mem_append.mp he with he | he
                · exact hev e he
                · simp only [List.mem_singleton] at he
                  subst he
                  exact hne_pair
              by_cases hs : send r.hosttoolsId body = true
              · rw [if_pos hs]
                apply ih
                · obtain ⟨l, hl, hl2⟩ := hlog
                  exact ⟨l, List.mem_append_left _ hl, hl2⟩
                · exact hev' true
              · rw [if_neg hs]
                exact ih _ hlog (hev' false)

/-- **C1.**  "Once a ScheduledMessageLog row exists for a
(template_id, reservation_id) pair, every subsequent evaluation of that
pair skips it without invoking the message-send collaborator, so a
second scan on the same trigger day sends nothing for that pair": with a
row for the pair in the log table, a scan produces no send invocation
(successful or failed) carrying that pair. -/
theorem scan_skips_logged_pair (send : String → String → Bool)
    (templates : List MessageTemplate) (reservations : List Reservation)
    (logs0 : List ScheduledMessageLog) (today nowHour : Int) (tid rid : Nat)
    (hlog : ∃ l ∈ logs0, l.templateId = tid ∧ l.reservationId = rid) :
    ∀ e ∈ (checkAndSendTemplates send templates reservations logs0 today nowHour).events,
      ¬(e.templateId = tid ∧ e.reservationId = rid) := by
  simp only [checkAndSendTemplates]
  have h := runCandidates_no_event_of_logged send nowHour tid rid
    (scanCandidates templates reservations today) ⟨[], logs0, 0⟩ hlog
    (by intro e he; simp at he)
  split
  · intro e he; simp at he
  · split
    · rename_i st heq
      rw [heq] at h
      exact h
    · rename_i st e0 heq
      rw [heq] at h
      exact h

/-- Instantiation of the C1 theorem: the pair (7, 1) is already logged,
and a scan that would otherwise send (matching trigger date, passed
hour, always-successful collaborator) invokes nothing for it. -/
theorem scan_skips_logged_pair_witness :
    (∃ l ∈ c1logs, l.templateId = 7 ∧ l.reservationId = 1) ∧
    ∀ e ∈ (checkAndSendTemplates (fun _ _ => true) [c1template] [c1reservation]
        c1logs 19783 12).events,
      ¬(e.templateId = 7 ∧ e.reservationId = 1) :=
  ⟨⟨⟨7, 1, "Hi Alice"⟩, by decide, rfl, rfl⟩,
   scan_skips_logged_pair (fun _ _ => true) [c1template] [c1reservation] c1logs
     19783 12 7 1 ⟨⟨7, 1, "Hi Alice"⟩, by decide, rfl, rfl⟩⟩

/-- Appending the log row the guard just found absent keeps every
(template, reservation) pair at no more than one log row. -/
theorem uniq_preserved (logs : List ScheduledMessageLog) (t r : Nat) (body : String)
    (huniq : ∀ tid rid,
      (logs.filter (fun l => l.templateId == tid && l.reservationId == rid)).length ≤ 1)
    (hempty : logs.filter (fun l => l.templateId == t && l.reservationId == r) = []) :
    ∀ tid rid,
      ((logs ++ [(⟨t, r, body⟩ : ScheduledMessageLog)]).filter
        (fun l => l.templateId == tid && l.reservationId == rid)).length ≤ 1 := by
  intro tid rid
  rw [List.filter_append]
  by_cases hq : ((⟨t, r, body⟩ : ScheduledMessageLog).templateId == tid &&
      (⟨t, r, body⟩ : ScheduledMessageLog).reservationId == rid) = true
  · have hp : t = tid ∧ r = rid := by simpa using hq
    obtain ⟨hp1, hp2⟩ := hp
    subst hp1
    subst hp2
    rw [hempty]
    simp [List.filter_cons, hq]
  · simp only [List.filter_cons, hq, if_false, List.filter_nil, Bool.false_eq_true]
    simpa using huniq tid rid

/-- With well-formed guest names and a duplicate-free log table, a scan
raises no exception. -/
theorem runCandidates_no_error (send : String → String → Bool) (nowHour : Int) :
    ∀ (cands : List (MessageTemplate × Reservation)) (st : ScanState),
      (∀ c ∈ cands, c.2.guestName = "" ∨ pySplitWs c.2.guestName ≠ []) →
      (∀ tid rid, (st.logs.filter
        (fun l => l.templateId == tid && l.reservationId == rid)).length ≤ 1) →
      (runCandidates send nowHour cands st).2 = none := by
  intro cands
  induction cands with
  | nil => intro st _ _; simp [runCandidates]
  | cons c rest ih =>
    rcases c with ⟨t, r⟩
    intro st hsub huniq
    have hsubrest : ∀ c ∈ rest, c.2.guestName = "" ∨ pySplitWs c.2.guestName ≠ [] :=
      fun c hc => hsub c (List.mem_cons_of_mem _ hc)
    simp only [runCandidates]
    by_cases h1 : houseSkip t r = true
    · rw [if_pos h1]; exact ih st hsubrest huniq
    · rw [if_neg h1]
      by_cases h2 : nowHour < t.hoursOffset
      · rw [if_pos h2]; exact ih st hsubrest huniq
      · rw [if_neg h2]
        obtain ⟨o, ho⟩ := scalarOneOrNone_of_le_one (huniq t.id r.id)
        rw [show logLookup st.logs t.id r.id = .ok o from ho]
        cases o with
        | some row => exact ih st hsubrest huniq
        | none =>
          obtain ⟨body, hbody⟩ := substitutePlaceholders_isOk t.body r r.listing
            (hsub (t, r) (List.mem_cons_self _ _))
          rw [hbody]
          dsimp only
          have hempty : st.logs.filter
              (fun l => l.templateId == t.id && l.reservationId == r.id) = [] :=
            scalarOneOrNone_ok_none ho
          by_cases hs : send r.hosttoolsId body = true
          · rw [if_pos hs]
            exact ih _ hsubrest (uniq_preserved st.logs t.id r.id body huniq hempty)
          · rw [if_neg hs]
            exact ih _ hsubrest huniq

/-- A candidate that passes the scope and hour gates and has no log row
for its pair — and whose pair ids no other candidate shares — is always
invoked, whatever the send collaborator does on the other candidates;
and a log row for it appears exactly on success. -/
theorem runCandidates_processes (send : String → String → Bool) (nowHour : Int)
    (t : MessageTemplate) (r : Reservation) :
    ∀ (cands : List (MessageTemplate × Reservation)) (st : ScanState),
      (t, r) ∈ cands →
      houseSkip t r = false →
      ¬(nowHour < t.hoursOffset) →
      st.logs.filter (fun l => l.templateId == t.id && l.reservationId == r.id) = [] →
      (∀ c ∈ cands, c.1.id = t.id ∧ c.2.id = r.id → c = (t, r)) →
      (∀ c ∈ cands, c.2.guestName = "" ∨ pySplitWs c.2.guestName ≠ []) →
      (∀ tid rid, (st.logs.filter
        (fun l => l.templateId == tid && l.reservationId == rid)).length ≤ 1) →
      ∃ e ∈ (runCandidates send nowHour cands st).1.events,
        e.templateId = t.id ∧ e.reservationId = r.id ∧
        (e.success = true → ∃ l ∈ (runCandidates send nowHour cands st).1.logs,
          l.templateId = t.id ∧ l.reservationId = r.id) := by
  intro cands
  induction cands with
  | nil => intro st hmem; simp at hmem
  | cons c rest ih =>
    rcases c with ⟨t0, r0⟩
    intro st hmem hskip hhour hnolog hc hsub huniq
    by_cases hhead : (t0, r0) = (t, r)
    · injection hhead with ht0 hr0
      subst ht0
      subst hr0
      simp only [runCandidates]
      rw [if_neg (by simp [hskip])]
      rw [if_neg hhour]
      have hlk : logLookup st.logs t0.id r0.id = .ok none := by
        unfold logLookup
        rw [hnolog]
        rfl
      rw [hlk]
      dsimp only
      obtain ⟨body, hbody⟩ := substitutePlaceholders_isOk t0.body r0 r0.listing
        (hsub (t0, r0) (List.mem_cons_self _ _))
      rw [hbody]
      dsimp only
      by_cases hs : send r0.hosttoolsId body = true
      · rw [if_pos hs]
        obtain ⟨tailE, htailE⟩ := runCandidates_events_mono send nowHour rest
          { events := st.events ++ [⟨t0.id, r0.id, r0.hosttoolsId, body, true⟩]
            logs := st.logs ++ [⟨t0.id, r0.id, body⟩]
            sent := st.sent + 1 }
        obtain ⟨tailL, htailL⟩ := runCandidates_logs_mono send nowHour rest
          { events := st.events ++ [⟨t0.id, r0.id, r0.hosttoolsId, body, true⟩]
            logs := st.logs ++ [⟨t0.id, r0.id, body⟩]
            sent := st.sent + 1 }
        refine ⟨⟨t0.id, r0.id, r0.hosttoolsId, body, true⟩, ?_, rfl, rfl, fun _ => ?_⟩
        · rw [htailE]; simp
        · refine ⟨⟨t0.id, r0.id, body⟩, ?_, rfl, rfl⟩
          rw [htailL]; simp
      · rw [if_neg hs]
        obtain ⟨tailE, htailE⟩ := runCandidates_events_mono send nowHour rest
          { st with events := st.events ++ [⟨t0.id, r0.id, r0.hosttoolsId, body, false⟩] }
        refine ⟨⟨t0.id, r0.id, r0.hosttoolsId, body, false⟩, ?_, rfl, rfl, fun hcontra => ?_⟩
        · rw [htailE]; simp
        · simp at hcontra
    · have hmemrest : (t, r) ∈ rest := by
        rcases List.mem_cons.mp hmem with heq | h
        · exact absurd heq.symm hhead
        · exact h
      have hcrest : ∀ c ∈ rest, c.1.id = t.id ∧ c.2.id = r.id → c = (t, r) :=
        fun c hcm => hc c (List.mem_cons_of_mem _ hcm)
      have hsubrest : ∀ c ∈ rest, c.2.guestName = "" ∨ pySplitWs c.2.guestName ≠ [] :=
        fun c hcm => hsub c (List.mem_cons_of_mem _ hcm)
      have hids : ¬(t0.id = t.id ∧ r0.id = r.id) :=
        fun hh => hhead (hc (t0, r0) (List.mem_cons_self _ _) hh)
      simp only [runCandidates]
      by_cases h1 : houseSkip t0 r0 = true
      · rw [if_pos h1]
        exact ih st hmemrest hskip hhour hnolog hcrest hsubrest huniq
      · rw [if_neg h1]
        by_cases h2 : nowHour < t0.hoursOffset
        · rw [if_pos h2]
          exact ih st hmemrest hskip hhour hnolog hcrest hsubrest huniq
        · rw [if_neg h2]
          obtain ⟨o, ho⟩ := scalarOneOrNone_of_le_one (huniq t0.id r0.id)
          rw [show logLookup st.logs t0.id r0.id = .ok o from ho]
          cases o with
          | some row =>
            exact ih st hmemrest hskip hhour hnolog hcrest hsubrest huniq
          | none =>
            obtain ⟨body, hbody⟩ := substitutePlaceholders_isOk t0.body r0 r0.listing
              (hsub (t0, r0) (List.mem_cons_self _ _))
            rw [hbody]
            dsimp only
            have hempty0 : st.logs.filter
                (fun l => l.templateId == t0.id && l.reservationId == r0.id) = [] :=
              scalarOneOrNone_ok_none ho
            by_cases hs : send r0.hosttoolsId body = true
            · rw [if_pos hs]
              refine ih _ hmemrest hskip hhour ?_ hcrest hsubrest
                (uniq_preserved st.logs t0.id r0.id body huniq hempty0)
              rw [List.filter_append, hnolog]
              simp only [List.filter_cons, List.filter_nil, List.nil_append]
              rw [if_neg (by simpa using hids)]
            · rw [if_neg hs]
              exact ih _ hmemrest hskip hhour hnolog hcrest hsubrest huniq

/-- A pair whose every invocation in a scan failed gains no log row in
that scan. -/
theorem runCandidates_failed_no_log (send : String → String → Bool) (nowHour : Int)
    (tid rid : Nat) :
    ∀ (cands : List (MessageTemplate × Reservation)) (st : ScanState),
      (∀ e ∈ (runCandidates send nowHour cands st).1.events,
        e.templateId = tid → e.reservationId = rid → e.success = false) →
      (runCandidates send nowHour cands st).1.logs.filter
          (fun l => l.templateId == tid && l.reservationId == rid)
        = st.logs.filter (fun l => l.templateId == tid && l.reservationId == rid) := by
  intro cands
  induction cands with
  | nil => intro st _; simp [runCandidates]
  | cons c rest ih =>
    rcases c with ⟨t0, r0⟩
    intro st hev
    simp only [runCandidates] at hev ⊢
    by_cases h1 : houseSkip t0 r0 = true
    · rw [if_pos h1] at hev ⊢; exact ih st hev
    · rw [if_neg h1] at hev ⊢
      by_cases h2 : nowHour < t0.hoursOffset
      · rw [if_pos h2] at hev ⊢; exact ih st hev
      · rw [if_neg h2] at hev ⊢
        cases hlk : logLookup st.logs t0.id r0.id with
        | error e0 => rfl
        | ok o =>
          rw [hlk] at hev
          cases o with
          | some row => exact ih st hev
          | none =>
            cases hsb : substitutePlaceholders t0.body r0 r0.listing with
            | error e0 => rfl
            | ok body =>
              rw [hsb] at hev
              dsimp only at hev ⊢
              by_cases hs : send r0.hosttoolsId body = true
              · rw [if_pos hs] at hev ⊢
                have hrow : ((⟨t0.id, r0.id, body⟩ : ScheduledMessageLog).templateId == tid &&
                    (⟨t0.id, r0.id, body⟩ : ScheduledMessageLog).reservationId == rid) = false := by
                  by_contra hcon
                  have hq : t0.id = tid ∧ r0.id = rid := by
                    simpa using hcon
                  obtain ⟨tailE, htailE⟩ := runCandidates_events_mono send nowHour rest
                    { events := st.events ++ [⟨t0.id, r0.id, r0.hosttoolsId, body, true⟩]
                      logs := st.logs ++ [⟨t0.id, r0.id, body⟩]
                      sent := st.sent + 1 }
                  have hevmem : (⟨t0.id, r0.id, r0.hosttoolsId, body, true⟩ : SendEvent) ∈
                      (runCandidates send nowHour rest
                        { events := st.events ++ [⟨t0.id, r0.id, r0.hosttoolsId, body, true⟩]
                          logs := st.logs ++ [⟨t0.id, r0.id, body⟩]
                          sent := st.sent + 1 }).1.events := by
                    rw [htailE]; simp
                  have := hev _ hevmem hq.1 hq.2
                  simp at this
                rw [ih _ hev, List.filter_append]
                simp only [List.filter_cons, hrow, Bool.false_eq_true, if_false,
                  List.filter_nil, List.append_nil]
              · rw [if_neg hs] at hev ⊢
                exact ih _ hev

/-- A scan candidate's template and reservation come from the tables. -/
theorem scanCandidates_mem {templates : List MessageTemplate}
    {reservations : List Reservation} {today : Int}
    {c : MessageTemplate × Reservation}
    (h : c ∈ scanCandidates templates reservations today) :
    c.1 ∈ templates ∧ c.2 ∈ reservations := by
  unfold scanCandidates at h
  rcases List.mem_flatMap.mp h with ⟨t, ht, hc⟩
  unfold templateCandidates at hc
  rcases htr : TRIGGER_DATE_MAP t.trigger with _ | ⟨f, off⟩
  · rw [htr] at hc
    simp at hc
  · rw [htr] at hc
    rcases List.mem_map.mp hc with ⟨r, hr, rfl⟩
    exact ⟨(List.mem_filter.mp ht).1, (List.mem_filter.mp hr).1⟩

/-- **C5.**  "Within a single scheduler scan, a failure raised by the
message-send collaborator for one reservation neither prevents the
remaining eligible (template, reservation) candidates of the same scan
from being processed and sent, nor results in a ScheduledMessageLog row
for the failed pair."  With well-formed guest names, a duplicate-free
log table and distinct row ids: (1) the scan completes without an
exception whatever the send collaborator answers; (2) every candidate
passing the scope/hour gates with no prior log row is invoked — other
candidates' failures notwithstanding — and logged exactly on success;
(3) a pair all of whose invocations failed has exactly its prior log
rows afterwards. -/
theorem scan_isolates_send_failures (send : String → String → Bool)
    (templates : List MessageTemplate) (reservations : List Reservation)
    (logs0 : List ScheduledMessageLog) (today nowHour : Int)
    (hsub : ∀ r ∈ reservations, r.guestName = "" ∨ pySplitWs r.guestName ≠ [])
    (huniq : ∀ tid rid, (logs0.filter
      (fun l => l.templateId == tid && l.reservationId == rid)).length ≤ 1)
    (hidt : (templates.map (·.id)).Nodup)
    (hidr : (reservations.map (·.id)).Nodup) :
    (checkAndSendTemplates send templates reservations logs0 today nowHour).err = none ∧
    (∀ t r, (t, r) ∈ scanCandidates templates reservations today →
      houseSkip t r = false → ¬(nowHour < t.hoursOffset) →
      logs0.filter (fun l => l.templateId == t.id && l.reservationId == r.id) = [] →
      ∃ e ∈ (checkAndSendTemplates send templates reservations logs0 today nowHour).events,
        e.templateId = t.id ∧ e.reservationId = r.id ∧
        (e.success = true →
          ∃ l ∈ (checkAndSendTemplates send templates reservations logs0 today nowHour).logs,
            l.templateId = t.id ∧ l.reservationId = r.id)) ∧
    (∀ tid rid,
      (∀ e ∈ (checkAndSendTemplates send templates reservations logs0 today nowHour).events,
        e.templateId = tid → e.reservationId = rid → e.success = false) →
      (checkAndSendTemplates send templates reservations logs0 today nowHour).logs.filter
          (fun l => l.templateId == tid && l.reservationId == rid)
        = logs0.filter (fun l => l.templateId == tid && l.reservationId == rid)) := by
  have hsubc : ∀ c ∈ scanCandidates templates reservations today,
      c.2.guestName = "" ∨ pySplitWs c.2.guestName ≠ [] :=
    fun c hc => hsub c.2 (scanCandidates_mem hc).2
  have hnoerr := runCandidates_no_error send nowHour
    (scanCandidates templates reservations today) ⟨[], logs0, 0⟩ hsubc huniq
  refine ⟨?_, ?_, ?_⟩
  · simp only [checkAndSendTemplates]
    split
    · rfl
    · split
      · rfl
      · rename_i st e0 heq
        rw [heq] at hnoerr
        simp at hnoerr
  · intro t r hmem hskip hhour hnolog
    have hcu : ∀ c ∈ scanCandidates templates reservations today,
        c.1.id = t.id ∧ c.2.id = r.id → c = (t, r) := by
      intro c hcm ⟨h1, h2⟩
      obtain ⟨hct, hcr⟩ := scanCandidates_mem hcm
      obtain ⟨htm, hrm⟩ := scanCandidates_mem hmem
      have e1 : c.1 = t := List.inj_on_of_nodup_map hidt hct htm h1
      have e2 : c.2 = r := List.inj_on_of_nodup_map hidr hcr hrm h2
      rw [← e1, ← e2]
    have hres := runCandidates_processes send nowHour t r
      (scanCandidates templates reservations today) ⟨[], logs0, 0⟩
      hmem hskip hhour hnolog hcu hsubc huniq
    simp only [checkAndSendTemplates]
    split
    · rename_i hemp
      exfalso
      have : scanCandidates templates reservations today = [] := by
        unfold scanCandidates
        rw [List.isEmpty_iff.mp hemp]
        rfl
      rw [this] at hmem
      simp at hmem
    · split
      · rename_i st heq
        rw [heq] at hres
        exact hres
      · rename_i st e0 heq
        rw [heq] at hnoerr
        simp at hnoerr
  · intro tid rid hev
    have hflog := runCandidates_failed_no_log send nowHour tid rid
      (scanCandidates templates reservations today) ⟨[], logs0, 0⟩
    simp only [checkAndSendTemplates] at hev ⊢
    split at hev
    · rename_i hemp
      rw [if_pos hemp]
    · rename_i hemp
      rw [if_neg hemp]
      rcases heq : runCandidates send nowHour
          (scanCandidates templates reservations today) ⟨[], logs0, 0⟩ with ⟨st, err⟩
      cases err with
      | none =>
        rw [heq] at hev
        dsimp only at hev ⊢
        have h := hflog (by rw [heq]; exact hev)
        rw [heq] at h
        exact h
      | some e0 =>
        rw [heq] at hnoerr

/-- Instantiation of the C5 theorem: collaborator down for `HT1` only,
two otherwise-eligible reservations. -/
theorem scan_isolates_send_failures_witness :
    (checkAndSendTemplates c5send [c5template] [c5resFail, c5resOk] [] 19783 12).err = none ∧
    (∀ t r, (t, r) ∈ scanCandidates [c5template] [c5resFail, c5resOk] 19783 →
      houseSkip t r = false → ¬((12 : Int) < t.hoursOffset) →
      List.filter (fun l => l.templateId == t.id && l.reservationId == r.id)
        ([] : List ScheduledMessageLog) = [] →
      ∃ e ∈ (checkAndSendTemplates c5send [c5template] [c5resFail, c5resOk] [] 19783 12).events,
        e.templateId = t.id ∧ e.reservationId = r.id ∧
        (e.success = true →
          ∃ l ∈ (checkAndSendTemplates c5send [c5template] [c5resFail, c5resOk] [] 19783 12).logs,
            l.templateId = t.id ∧ l.reservationId = r.id)) ∧
    (∀ tid rid,
      (∀ e ∈ (checkAndSendTemplates c5send [c5template] [c5resFail, c5resOk] [] 19783 12).events,
        e.templateId = tid → e.reservationId = rid → e.success = false) →
      (checkAndSendTemplates c5send [c5template] [c5resFail, c5resOk] [] 19783 12).logs.filter
          (fun l => l.templateId == tid && l.reservationId == rid)
        = List.filter (fun l => l.templateId == tid && l.reservationId == rid)
            ([] : List ScheduledMessageLog)) :=
  scan_isolates_send_failures c5send [c5template] [c5resFail, c5resOk] [] 19783 12
    (by decide) (by intro tid rid; simp) (by decide) (by decide)

end VBR
